import Mathlib

/-!
Shallow embedding of the Breakout game core
(`breakout game/src/*.py`): entities, collision, power-up lifecycle,
scoring/leveling, state machine and the authentication gateway.

Numeric conventions: pygame `Rect` coordinates are machine integers,
modelled as `Int`; Python floats (velocities, particle sizes, fragment
dimensions) are modelled as exact rationals `ℚ`; `int()` truncation
toward zero is modelled by `pyint`.  Calls to `random.*` are modelled by
oracle parameters (`ParticleRnd`, `FragmentRnd`, `Rnd`) supplying the
drawn values; sound and drawing primitives are external effects with no
bearing on game state, except where `draw` mutates entity fields, which
is modelled explicitly (`Ball.draw_update`, `Brick.draw_update`).
-/

namespace Breakout

/-- Python `int()` conversion of a rational: truncation toward zero,
as pygame applies to float arguments of `Rect.move_ip`. -/
def pyint (q : ℚ) : Int :=
  Int.tdiv q.num q.den

/-- pygame `Rect`: integer position and size. -/
structure Rect where
  x : Int
  y : Int
  w : Int
  h : Int
deriving DecidableEq

def Rect.left (r : Rect) : Int := r.x

def Rect.right (r : Rect) : Int := r.x + r.w

def Rect.top (r : Rect) : Int := r.y

def Rect.bottom (r : Rect) : Int := r.y + r.h

/-- pygame `Rect.centerx` = `x + w // 2` (floor division; sizes here are positive). -/
def Rect.centerx (r : Rect) : Int := r.x + r.w / 2

def Rect.centery (r : Rect) : Int := r.y + r.h / 2

/-- pygame `Rect.colliderect`: overlap test for positive-size rects;
rects that merely touch along an edge do not collide. -/
def Rect.colliderect (a b : Rect) : Bool :=
  a.x < b.x + b.w && b.x < a.x + a.w && a.y < b.y + b.h && b.y < a.y + a.h

/-- The three power-up kinds of `special_brick_types`. -/
inductive PowerUpType where
  | increase_paddle_size
  | slow_ball
  | extra_life
deriving DecidableEq

/-- `Paddle` (paddle.py): only the rect is state. -/
structure Paddle where
  rect : Rect
deriving DecidableEq

/-- `Paddle.__init__`: `pygame.Rect(400 - 50, 580, 100, 10)`. -/
def Paddle.init : Paddle :=
  { rect := { x := 400 - 50, y := 580, w := 100, h := 10 } }

/-- `Paddle.move(dx)`: moves by `dx` only when
`0 < rect.left + dx < 800 - 100` (the clamp hard-codes width 100). -/
def Paddle.move (p : Paddle) (dx : Int) : Paddle :=
  if 0 < p.rect.left + dx ∧ p.rect.left + dx < 800 - 100 then
    { p with rect := { p.rect with x := p.rect.x + dx } }
  else p

/-- Values drawn by `random` inside `Particle.__init__`:
`vx ∈ uniform(-1.5, 1.5)`, `vy ∈ uniform(-2, 0)`, `size ∈ randint(5, 10)`,
and the red/green colour components. -/
structure ParticleRnd where
  vx : ℚ
  vy : ℚ
  size : ℚ
  r : Int
  g : Int
deriving DecidableEq

/-- `Particle` (particle.py): position, velocity, size, lifetime, colour
(blue component is always 0). -/
structure Particle where
  x : ℚ
  y : ℚ
  vx : ℚ
  vy : ℚ
  size : ℚ
  lifetime : Int
  colorR : Int
  colorG : Int
deriving DecidableEq

/-- `Particle.__init__(x, y)`: lifetime starts at 50. -/
def Particle.init (x y : ℚ) (rnd : ParticleRnd) : Particle :=
  { x := x, y := y, vx := rnd.vx, vy := rnd.vy, size := rnd.size,
    lifetime := 50, colorR := rnd.r, colorG := rnd.g }

/-- `Particle.update`: move by velocity, shrink size by 0.2 (floored at 0),
shift colour toward red, decrement lifetime. -/
def Particle.update (p : Particle) : Particle :=
  { p with
    x := p.x + p.vx
    y := p.y + p.vy
    size := max (p.size - 1/5) 0
    colorR := min 255 (p.colorR + 5)
    colorG := max 0 (p.colorG - 5)
    lifetime := p.lifetime - 1 }

/-- `Star` (star.py): decorative background entity. -/
structure Star where
  x : Int
  y : ℚ
  size : Int
  speed : ℚ
deriving DecidableEq

/-- `Star.update`: fall by `speed`; past the bottom, recycle to the top at a
fresh random x (supplied by the oracle `newx`). -/
def Star.update (s : Star) (newx : Int) : Star :=
  let y := s.y + s.speed
  if y > 600 then { s with y := 0, x := newx } else { s with y := y }

/-- `Brick` (brick.py): 70×20 rect, flicker-animation counters mutated by
`draw`, and an optional power-up tag. -/
structure Brick where
  rect : Rect
  frame_counter : Nat
  flicker_offset : Int
  flicker_direction : Int
  power_up_type : Option PowerUpType
deriving DecidableEq

/-- `Brick.__init__(x, y)`. -/
def Brick.init (x y : Int) : Brick :=
  { rect := { x := x, y := y, w := 70, h := 20 },
    frame_counter := 0, flicker_offset := 0, flicker_direction := 1,
    power_up_type := none }

/-- State mutation performed by `Brick.draw`: the frame counter always
increments, and every 10th frame the flicker offset advances, reversing
direction at `max_flicker_offset = 2`. -/
def Brick.draw_update (b : Brick) : Brick :=
  let fc := b.frame_counter + 1
  if fc % 10 = 0 then
    let fo := b.flicker_offset + b.flicker_direction
    let fd := if 2 ≤ |fo| then -b.flicker_direction else b.flicker_direction
    { b with frame_counter := fc, flicker_offset := fo, flicker_direction := fd }
  else
    { b with frame_counter := fc }

/-- Values drawn by `random` for one `Brick.break_into_fragments()` call:
fragment width/height, fade speed, and the fragment's velocities. -/
structure FragmentRnd where
  width : ℚ
  height : ℚ
  fade_speed : ℚ
  vx : ℚ
  vy : ℚ
deriving DecidableEq

/-- `BrickFragment` (brick.py): position, shrinking size, velocity, fade
speed; colour is the constant (255, 0, 0) and is omitted. -/
structure BrickFragment where
  x : ℚ
  y : ℚ
  width : ℚ
  height : ℚ
  vx : ℚ
  vy : ℚ
  fade_speed : ℚ
deriving DecidableEq

/-- `Brick.break_into_fragments()`: fragment spawned at the brick's
position with random size/fade (oracle `r`). -/
def Brick.break_into_fragments (b : Brick) (r : FragmentRnd) : BrickFragment :=
  { x := b.rect.x, y := b.rect.y, width := r.width, height := r.height,
    vx := r.vx, vy := r.vy, fade_speed := r.fade_speed }

/-- `BrickFragment.update`: move, shrink by the fade speed, clamp at 0. -/
def BrickFragment.update (f : BrickFragment) : BrickFragment :=
  { f with
    x := f.x + f.vx
    y := f.y + f.vy
    width := max (f.width - f.fade_speed) 0
    height := max (f.height - f.fade_speed) 0 }

/-- `PowerUp` (power_up.py): a falling 20×20 box carrying a type tag. -/
structure PowerUp where
  rect : Rect
  power_up_type : PowerUpType
deriving DecidableEq

/-- `PowerUp.__init__(x, y, power_up_type)`. -/
def PowerUp.init (x y : Int) (t : PowerUpType) : PowerUp :=
  { rect := { x := x, y := y, w := 20, h := 20 }, power_up_type := t }

/-- `PowerUp.move`: fall 2 px per tick. -/
def PowerUp.move (p : PowerUp) : PowerUp :=
  { p with rect := { p.rect with y := p.rect.y + 2 } }

/-- `Ball` (ball.py): 20×20 rect, rational velocity, particle trail. -/
structure Ball where
  rect : Rect
  dx : ℚ
  dy : ℚ
  trail : List Particle
deriving DecidableEq

/-- `Ball.__init__`: rect `(400-10, 300-10, 20, 20)`, velocity `(5, -5)`. -/
def Ball.init : Ball :=
  { rect := { x := 400 - 10, y := 300 - 10, w := 20, h := 20 },
    dx := 5, dy := -5, trail := [] }

/-- `Ball.move`: append a trail particle at the current centre, evict the
oldest once the trail exceeds 20, then `move_ip(dx, dy)` (pygame
truncates the float deltas toward zero). -/
def Ball.move (b : Ball) (rnd : ParticleRnd) : Ball :=
  let trail := b.trail ++ [Particle.init b.rect.centerx b.rect.centery rnd]
  let trail := if trail.length > 20 then trail.drop 1 else trail
  { b with
    rect := { b.rect with x := b.rect.x + pyint b.dx, y := b.rect.y + pyint b.dy }
    trail := trail }

/-- `Ball.check_collision_with_walls`: reflect `dx` at the side walls,
reflect `dy` at the top. -/
def Ball.check_collision_with_walls (b : Ball) : Ball :=
  let b := if b.rect.left ≤ 0 ∨ b.rect.right ≥ 800 then { b with dx := -b.dx } else b
  if b.rect.top ≤ 0 then { b with dy := -b.dy } else b

/-- `Ball.check_collision_with_paddle`: on overlap, reflect `dy` and spawn
10 particles at the ball's centre (oracle `rnd` gives the random draws). -/
def Ball.check_collision_with_paddle (b : Ball) (paddle : Paddle)
    (particles : List Particle) (rnd : Nat → ParticleRnd) :
    Ball × List Particle :=
  if b.rect.colliderect paddle.rect then
    ({ b with dy := -b.dy },
     particles ++ (List.range 10).map fun j =>
       Particle.init b.rect.centerx b.rect.centery (rnd j))
  else (b, particles)

/-- State mutation performed by `Ball.draw`: every trail particle is
updated (moved, shrunk, aged) before being drawn. -/
def Ball.draw_update (b : Ball) : Ball :=
  { b with trail := b.trail.map Particle.update }

/-! Authentication gateway (user_auth.py).  The `users` store is the
module-level dictionary, modelled as an association list; the SHA-256
digest is an abstract function parameter `hash`. -/

/-- One record of the `users` store: hashed password and high score. -/
structure UserRec where
  password : String
  high_score : Int
deriving DecidableEq

/-- The `users` store: username to record. -/
abbrev Users := List (String × UserRec)

/-- Python `str.strip()`: drop leading and trailing whitespace. -/
def pystrip (s : String) : String :=
  { data := ((s.data.dropWhile Char.isWhitespace).reverse.dropWhile
      Char.isWhitespace).reverse }

namespace UserAuth

/-- `get_high_score(username)`: the stored high score, or `None`
(modelled as `none`) when the user does not exist. -/
def get_high_score (users : Users) (username : String) : Option Int :=
  match users.lookup username with
  | some u => some u.high_score
  | none => none

/-- `register_user(username, password)`: reject a taken username,
otherwise add the record with high score 0. -/
def register_user (hash : String → String) (users : Users)
    (username password : String) : Users :=
  if (users.lookup username).isSome then users
  else users ++ [(username, { password := hash password, high_score := 0 })]

/-- `login_user(username, password)`: true when the user exists and the
hash of the given password matches the stored hash. -/
def login_user (hash : String → String) (users : Users)
    (username password : String) : Bool :=
  match users.lookup username with
  | some u => u.password == hash password
  | none => false

/-- `update_high_score(username, score)`: overwrite the stored high score
only when the user exists and the new score is strictly higher. -/
def update_high_score (users : Users) (username : String) (score : Int) : Users :=
  match users.lookup username with
  | some u =>
      if score > u.high_score then
        users.map fun kv =>
          if kv.1 = username then (kv.1, { kv.2 with high_score := score }) else kv
      else users
  | none => users

end UserAuth

/-- The game-state constants `MAIN_MENU` … `POST_LOGIN_MENU`. -/
inductive GameMode where
  | main_menu
  | game_running
  | paused
  | game_over
  | post_login_menu
deriving DecidableEq

/-- The mutable state of `BreakoutGame` (breakout_game.py), omitting
pure-rendering handles (screen, clock, fonts, buttons, sounds). -/
structure BreakoutGame where
  paddle : Paddle
  ball : Ball
  default_ball_dx : ℚ
  default_ball_dy : ℚ
  row_range : Nat
  bricks : List Brick
  particles : List Particle
  fragments : List BrickFragment
  stars : List Star
  level : Int
  score : Int
  current_high_score : Option Int
  lives : Int
  stage_bricks : Int
  active_power_up : Option PowerUpType
  power_ups : List PowerUp
  power_up_start_time : Nat
  paddle_width_default : Int
  game_state : GameMode
  logged_in : Bool
  current_user : Option String
  focused : Bool
  username_text : String
  password_text : String
deriving DecidableEq

namespace BreakoutGame

/-- `BreakoutGame.create_bricks(rows, cols)`: an 80×30-pitch grid with
origin (10, 10); each brick receives a power-up tag with probability 0.2
(type uniform among the three) — the random outcome per cell is supplied
by the oracle `tag`. -/
def create_bricks (tag : Nat → Nat → Option PowerUpType) (rows cols : Nat) :
    List Brick :=
  (List.range rows).flatMap fun (row : Nat) =>
    (List.range cols).map fun (col : Nat) =>
      { Brick.init ((col : Int) * 80 + 10) ((row : Int) * 30 + 10) with
          power_up_type := tag row col }

/-- `BreakoutGame.__init__`: initial game state.  Note the source sets
`default_ball_dy` from `ball.dx` (line 61), not from `ball.dy`.  The 100
random background stars are supplied as the oracle `stars`. -/
def init (tag : Nat → Nat → Option PowerUpType) (stars : List Star) :
    BreakoutGame :=
  let paddle := Paddle.init
  let ball := Ball.init
  let bricks := create_bricks tag 5 10
  { paddle := paddle
    ball := ball
    default_ball_dx := ball.dx
    default_ball_dy := ball.dx
    row_range := 5
    bricks := bricks
    particles := []
    fragments := []
    stars := stars
    level := 1
    score := 0
    current_high_score := some 0
    lives := 3
    stage_bricks := bricks.length
    active_power_up := none
    power_ups := []
    power_up_start_time := 0
    paddle_width_default := paddle.rect.w
    game_state := GameMode.main_menu
    logged_in := false
    current_user := none
    focused := true
    username_text := ""
    password_text := "" }

/-- `BreakoutGame.activate_power_up(power_up_type)`: apply the effect
(paddle width ×1.5, ball speed ×0.7, or +1 life), then record the active
power-up and its start time (`now` = `pygame.time.get_ticks()`). -/
def activate_power_up (g : BreakoutGame) (t : PowerUpType) (now : Nat) :
    BreakoutGame :=
  let g :=
    match t with
    | PowerUpType.increase_paddle_size =>
        { g with paddle :=
            { g.paddle with rect :=
                { g.paddle.rect with w := g.paddle_width_default * 3 / 2 } } }
    | PowerUpType.slow_ball =>
        { g with ball :=
            { g.ball with dx := g.ball.dx * (7/10), dy := g.ball.dy * (7/10) } }
    | PowerUpType.extra_life =>
        { g with lives := g.lives + 1 }
  { g with active_power_up := some t, power_up_start_time := now }

/-- `BreakoutGame.reset_power_ups`: revert the tracked effect — paddle
width back to the default, or ball speed to `default_ball_dx/dy` times
the current direction sign — and clear the active power-up. -/
def reset_power_ups (g : BreakoutGame) : BreakoutGame :=
  let g :=
    match g.active_power_up with
    | some PowerUpType.increase_paddle_size =>
        { g with paddle :=
            { g.paddle with rect :=
                { g.paddle.rect with w := g.paddle_width_default } } }
    | some PowerUpType.slow_ball =>
        let direction_x : ℚ := if g.ball.dx > 0 then 1 else -1
        let direction_y : ℚ := if g.ball.dy > 0 then 1 else -1
        { g with ball :=
            { g.ball with
                dx := g.default_ball_dx * direction_x
                dy := g.default_ball_dy * direction_y } }
    | _ => g
  { g with active_power_up := none }

/-- `BreakoutGame.scoring`: award `(stage_bricks - len(bricks)) * level * 100`
points and move the baseline `stage_bricks` down to the current count. -/
def scoring (g : BreakoutGame) : BreakoutGame :=
  let bricks_destroyed : Int := g.stage_bricks - g.bricks.length
  { g with
    score := g.score + bricks_destroyed * (g.level * 100)
    stage_bricks := (g.bricks.length : Int) }

/-- `BreakoutGame.level_up`: next level — fresh paddle and ball, ball
speed scaled by 1.1 and recorded as the new default, effects cleared, a
new grid for `row_range + 1` rows (capped at 10), state back to running. -/
def level_up (g : BreakoutGame) (tag : Nat → Nat → Option PowerUpType) :
    BreakoutGame :=
  let level := g.level + 1
  let row_range := g.row_range + 1
  let ball := Ball.init
  let ball := { ball with dx := ball.dx * (11/10), dy := ball.dy * (11/10) }
  let row_range := if row_range > 10 then 10 else row_range
  let bricks := create_bricks tag row_range 10
  { g with
    level := level
    row_range := row_range
    paddle := Paddle.init
    ball := ball
    default_ball_dx := ball.dx
    default_ball_dy := ball.dy
    particles := []
    fragments := []
    bricks := bricks
    stage_bricks := bricks.length
    game_state := GameMode.game_running }

/-- `BreakoutGame.reset_game`: restart after a game over — fresh paddle,
ball and a plain 5×10 grid, score/level/lives reset, state to the
post-login menu.  Note `row_range` is not reset. -/
def reset_game (g : BreakoutGame) : BreakoutGame :=
  let bricks := (List.range 5).flatMap fun (row : Nat) =>
    (List.range 10).map fun (col : Nat) =>
      Brick.init ((col : Int) * 80 + 10) ((row : Int) * 30 + 10)
  { g with
    paddle := Paddle.init
    ball := Ball.init
    bricks := bricks
    particles := []
    fragments := []
    score := 0
    level := 1
    lives := 3
    stage_bricks := bricks.length
    game_state := GameMode.post_login_menu }

/-- `BreakoutGame.register_user`: strip both input fields; when both are
non-empty, register through the gateway and clear the fields, otherwise
only report a message (the fields keep their text). -/
def register_user (hash : String → String) (users : Users) (g : BreakoutGame) :
    BreakoutGame × Users :=
  let username := pystrip g.username_text
  let password := pystrip g.password_text
  if username ≠ "" ∧ password ≠ "" then
    ({ g with username_text := "", password_text := "" },
     UserAuth.register_user hash users username password)
  else
    (g, users)

/-- `BreakoutGame.login_user`: strip both input fields; on verified
credentials record the user, fetch the high score and move to the
post-login menu; on wrong credentials clear the fields; on an empty
field only report a message (the fields keep their text). -/
def login_user (hash : String → String) (users : Users) (g : BreakoutGame) :
    BreakoutGame :=
  let username := pystrip g.username_text
  let password := pystrip g.password_text
  if username ≠ "" ∧ password ≠ "" then
    if UserAuth.login_user hash users username password then
      { g with
        logged_in := true
        current_user := some username
        current_high_score := UserAuth.get_high_score users username
        game_state := GameMode.post_login_menu }
    else
      { g with username_text := "", password_text := "" }
  else
    g

/-- `BreakoutGame.update_high_score`: write the session score through the
gateway when it beats the stored high score.  A missing user would make
the Python comparison with `None` raise; that unreachable branch is
modelled as no write. -/
def update_high_score (users : Users) (g : BreakoutGame) : Users :=
  match g.current_user with
  | none => users
  | some user =>
      match UserAuth.get_high_score users user with
      | none => users
      | some h =>
          if g.score > h then UserAuth.update_high_score users user g.score
          else users

end BreakoutGame

/-- The outcomes of one `random` stream for a tick: the trail particle's
draws, the paddle-hit burst draws, and per brick the burst draws, the
`randint(4, 10)` fragment count and each fragment's draws; `star_x`
supplies recycled star positions and `tag` the next grid's power-up
assignment. -/
structure Rnd where
  trail_particle : ParticleRnd
  paddle_hit : Nat → ParticleRnd
  brick_particle : Brick → Nat → ParticleRnd
  num_fragments : Brick → Nat
  fragment : Brick → Nat → FragmentRnd
  star_x : Nat → Int
  tag : Nat → Nat → Option PowerUpType

/-- The entity collections threaded through
`check_collision_with_bricks`. -/
structure Ents where
  ball : Ball
  bricks : List Brick
  power_ups : List PowerUp
  particles : List Particle
  fragments : List BrickFragment
deriving DecidableEq

namespace BreakoutGame

/-- `BreakoutGame.check_collision_with_bricks`: iterate a snapshot of the
brick list; every brick overlapping the ball reflects `dy`, spawns a
power-up at `(brick.x + 25, brick.y)` when tagged, is removed, and
spawns 10 particles at its centre plus `randint(4, 10)` fragments. -/
def check_collision_with_bricks (rnd : Rnd) (ball : Ball)
    (bricks : List Brick) (power_ups : List PowerUp)
    (particles : List Particle) (fragments : List BrickFragment) : Ents :=
  match bricks with
  | [] => { ball := ball, bricks := [], power_ups := power_ups,
            particles := particles, fragments := fragments }
  | b :: rest =>
      if ball.rect.colliderect b.rect then
        check_collision_with_bricks rnd { ball with dy := -ball.dy } rest
          (power_ups ++
            (b.power_up_type.map fun t =>
              PowerUp.init (b.rect.x + 25) b.rect.y t).toList)
          (particles ++ (List.range 10).map fun j =>
            Particle.init b.rect.centerx b.rect.centery (rnd.brick_particle b j))
          (fragments ++ (List.range (rnd.num_fragments b)).map fun j =>
            b.break_into_fragments (rnd.fragment b j))
      else
        let e := check_collision_with_bricks rnd ball rest power_ups
          particles fragments
        { e with bricks := b :: e.bricks }

/-- Lines 315-323 of `update_game`: on the ball reaching the bottom,
either lose a life and respawn the ball (more than one life left), or —
at exactly one life — write the high score through the gateway, refresh
`current_high_score` and enter the game-over state. -/
def life_and_game_over (users : Users) (g : BreakoutGame) :
    BreakoutGame × Users :=
  let g :=
    if g.ball.rect.bottom ≥ 600 ∧ g.lives > 1 then
      { g with lives := g.lives - 1, ball := Ball.init }
    else g
  if g.ball.rect.bottom ≥ 600 ∧ g.lives = 1 then
    let users := g.update_high_score users
    ({ g with
        current_high_score :=
          match g.current_user with
          | some user => UserAuth.get_high_score users user
          | none => none
        game_state := GameMode.game_over },
     users)
  else (g, users)

/-- Lines 326-334 of `update_game`: iterate a snapshot of the falling
power-ups; each moves down, is activated and removed on paddle contact,
and is removed without effect past the bottom.  Returns the updated game
and the surviving power-up list. -/
def power_up_pass (now : Nat) (g : BreakoutGame) (todo : List PowerUp) :
    BreakoutGame × List PowerUp :=
  match todo with
  | [] => (g, [])
  | pu :: rest =>
      let pu := pu.move
      let gc :=
        if pu.rect.colliderect g.paddle.rect then
          (g.activate_power_up pu.power_up_type now, true)
        else (g, false)
      let keep := !gc.2 && !(decide (pu.rect.top ≥ 600))
      let r := power_up_pass now gc.1 rest
      (r.1, if keep then pu :: r.2 else r.2)

/-- Lines 278-304 of `update_game`: ball motion and wall bounce, paddle
input, star background, ball-paddle and ball-brick collisions, and the
aging/purge of particles and fragments. -/
def move_phase (g : BreakoutGame) (rnd : Rnd) (left_key right_key : Bool) :
    BreakoutGame :=
  let ball := (g.ball.move rnd.trail_particle).check_collision_with_walls
  let paddle := if left_key then g.paddle.move (-9) else g.paddle
  let paddle := if right_key then paddle.move 9 else paddle
  let stars := g.stars.enum.map fun si => si.2.update (rnd.star_x si.1)
  let bp := ball.check_collision_with_paddle paddle g.particles rnd.paddle_hit
  let e := check_collision_with_bricks rnd bp.1 g.bricks g.power_ups
    bp.2 g.fragments
  let particles := (e.particles.map Particle.update).filter fun p =>
    !(decide (p.lifetime ≤ 0) || decide (p.size ≤ 0))
  let fragments := (e.fragments.map BrickFragment.update).filter fun f =>
    !(decide (f.width ≤ 0) || decide (f.height ≤ 0))
  { g with
    ball := e.ball, paddle := paddle, stars := stars, bricks := e.bricks,
    power_ups := e.power_ups, particles := particles, fragments := fragments }

/-- Lines 306-312 of `update_game`: award points when the brick count
dropped below the scored baseline, and level up when no bricks remain. -/
def score_and_level (rnd : Rnd) (g : BreakoutGame) : BreakoutGame :=
  let g := if (g.bricks.length : Int) < g.stage_bricks then g.scoring else g
  if g.bricks.length == 0 then g.level_up rnd.tag else g

/-- Lines 336-337 of `update_game`: revert the active power-up once more
than `POWER_UP_DURATION` = 5000 ms have elapsed since activation. -/
def power_up_expiry (now : Nat) (g : BreakoutGame) : BreakoutGame :=
  if g.active_power_up.isSome && decide (now - g.power_up_start_time > 5000) then
    g.reset_power_ups
  else g

/-- `BreakoutGame.update_game`: one Running-state tick — ball motion and
wall bounce, paddle input, star background, paddle and brick collisions,
particle/fragment aging and purge, scoring, level-up, life
loss/game-over, power-up fall/collection, and timed effect expiry.
`now` is `pygame.time.get_ticks()`; `left_key`/`right_key` the pressed
state of the arrow keys. -/
def update_game (g : BreakoutGame) (rnd : Rnd) (left_key right_key : Bool)
    (now : Nat) (users : Users) : BreakoutGame × Users :=
  if g.game_state = GameMode.game_running then
    let g := g.move_phase rnd left_key right_key
    let g := score_and_level rnd g
    let gu := g.life_and_game_over users
    let gp := power_up_pass now gu.1 gu.1.power_ups
    let g := { gp.1 with power_ups := gp.2 }
    (power_up_expiry now g, gu.2)
  else (g, users)

/-- State mutation performed by `BreakoutGame.draw_game`: in the running
state, `ball.draw` updates every trail particle and `brick.draw`
advances each brick's flicker animation; no other state is touched, and
the menu/paused/game-over screens touch none. -/
def draw_game (g : BreakoutGame) : BreakoutGame :=
  if g.game_state = GameMode.game_running then
    { g with ball := g.ball.draw_update, bricks := g.bricks.map Brick.draw_update }
  else g

/-- The body of the `while` loop in `BreakoutGame.run` after
`handle_events`: update only when focused (and only the running state
ticks; the post-login branch merely draws), then draw unconditionally. -/
def loop_body (g : BreakoutGame) (rnd : Rnd) (left_key right_key : Bool)
    (now : Nat) (users : Users) : BreakoutGame × Users :=
  let r :=
    if g.focused then
      if g.game_state = GameMode.game_running then
        g.update_game rnd left_key right_key now users
      else (g, users)
    else (g, users)
  (r.1.draw_game, r.2)

end BreakoutGame

/-! Derived predicates used by the statements below. -/

/-- The paddle bound stated by the spec: the left edge lies within
`[0, screen_width - width]` for the paddle's current width. -/
def Paddle.in_bounds (p : Paddle) : Prop :=
  0 ≤ p.rect.left ∧ p.rect.left ≤ 800 - p.rect.w

instance (p : Paddle) : Decidable p.in_bounds := by
  unfold Paddle.in_bounds
  infer_instance

/-- The no-power-up baseline of the spec: paddle width equals the
default width and each ball-velocity axis has the default magnitude. -/
def BreakoutGame.at_baseline (g : BreakoutGame) : Prop :=
  g.paddle.rect.w = g.paddle_width_default ∧
  |g.ball.dx| = |g.default_ball_dx| ∧ |g.ball.dy| = |g.default_ball_dy|

/-- The gameplay-relevant projection of the state: everything except the
cosmetic trail/star/flicker animation data. -/
def BreakoutGame.gameplay_view (g : BreakoutGame) :
    Rect × ℚ × ℚ × Paddle × List (Rect × Option PowerUpType) × Int × Int ×
      Int × Int × Option PowerUpType × List PowerUp × List Particle ×
      List BrickFragment × GameMode × Nat :=
  (g.ball.rect, g.ball.dx, g.ball.dy, g.paddle,
   g.bricks.map fun b => (b.rect, b.power_up_type),
   g.score, g.level, g.lives, g.stage_bricks, g.active_power_up,
   g.power_ups, g.particles, g.fragments, g.game_state, g.row_range)

/-! Concrete oracle instances and reachable states used as inputs of the
closed theorems below. -/

/-- A power-up assignment oracle under which no brick is special
(`random.random() ≥ 0.2` at every cell). -/
def tag0 : Nat → Nat → Option PowerUpType := fun _ _ => none

/-- A concrete outcome of the draws in `Particle.__init__`. -/
def prnd0 : ParticleRnd := { vx := 0, vy := -1, size := 5, r := 200, g := 100 }

/-- A concrete outcome of the draws behind `break_into_fragments`. -/
def frnd0 : FragmentRnd :=
  { width := 17, height := 5, fade_speed := 1/20, vx := 0, vy := 1 }

/-- A concrete per-tick randomness stream: every `randint(4, 10)`
returns 4, and no generated brick is special. -/
def rnd0 : Rnd :=
  { trail_particle := prnd0, paddle_hit := fun _ => prnd0,
    brick_particle := fun _ _ => prnd0, num_fragments := fun _ => 4,
    fragment := fun _ _ => frnd0, star_x := fun _ => 0, tag := tag0 }

/-- A concrete stand-in for the SHA-256 digest. -/
def hash0 : String → String := fun s => s

/-- The freshly constructed game (no special bricks, star field elided). -/
def g0 : BreakoutGame := BreakoutGame.init tag0 []

/-- A session that has just cleared level 1: `level_up` has run once, so
`level = 2` and `row_range = 6`. -/
def g_level2 : BreakoutGame := g0.level_up tag0

/-- A Running-state tick input with a single remaining brick placed in
the incoming ball's path (the position any level reaches when its last
brick is about to be destroyed). -/
def gC4 : BreakoutGame :=
  { g0 with game_state := GameMode.game_running,
            bricks := [Brick.init 390 280], stage_bricks := 1 }

/-- A Running state one destroyed brick behind the scored baseline. -/
def gC8 : BreakoutGame :=
  { g0 with game_state := GameMode.game_running, stage_bricks := 51 }

/-- An unfocused Running state whose ball has one trail particle
(as after any moving tick). -/
def g7 : BreakoutGame :=
  { g0 with game_state := GameMode.game_running, focused := false,
            ball := { Ball.init with trail := [Particle.init 400 300 prnd0] } }

/-- A Running state at the last life with the ball past the bottom edge
and a logged-in user whose stored high score is 10. -/
def g9 : BreakoutGame :=
  { g0 with game_state := GameMode.game_running, lives := 1, score := 42,
            current_user := some "alice",
            ball := { Ball.init with rect := { x := 390, y := 590, w := 20, h := 20 } } }

/-- A one-user gateway store for the game-over scenario. -/
def users9 : Users := [("alice", { password := hash0 "pw", high_score := 10 })]

/-- A main-menu state in which only the password box has text. -/
def g10 : BreakoutGame := { g0 with password_text := "pw" }

set_option maxRecDepth 8000

/-! Projection lemmas about the power-up lifecycle operations. -/

theorem level_up_ball_dy (g : BreakoutGame) (tag : Nat → Nat → Option PowerUpType) :
    (g.level_up tag).ball.dy = Ball.init.dy * (11/10) := rfl

theorem level_up_default_ball_dy (g : BreakoutGame)
    (tag : Nat → Nat → Option PowerUpType) :
    (g.level_up tag).default_ball_dy = Ball.init.dy * (11/10) := rfl

theorem activate_slow_ball_dy (g : BreakoutGame) (now : Nat) :
    (g.activate_power_up PowerUpType.slow_ball now).ball.dy = g.ball.dy * (7/10) :=
  rfl

theorem activate_slow_ball_active (g : BreakoutGame) (now : Nat) :
    (g.activate_power_up PowerUpType.slow_ball now).active_power_up =
      some PowerUpType.slow_ball := rfl

theorem activate_slow_ball_default_dy (g : BreakoutGame) (now : Nat) :
    (g.activate_power_up PowerUpType.slow_ball now).default_ball_dy =
      g.default_ball_dy := rfl

theorem reset_power_ups_slow_dy (g : BreakoutGame)
    (h : g.active_power_up = some PowerUpType.slow_ball) :
    g.reset_power_ups.ball.dy =
      g.default_ball_dy * (if g.ball.dy > 0 then 1 else -1) := by
  unfold BreakoutGame.reset_power_ups
  rw [h]

/-- C2: the claim fails on the code at any level above 1.  After one
`level_up` the stored default `dy` is the scaled fresh value −5.5, which
is negative; when a slow-ball effect expires, `reset_power_ups`
multiplies that negative default by the current direction sign, so the
restored `dy` has the opposite sign of the slowed `dy`: here the slowed
ball moves up (dy = −3.85) and the reversion sends it down (dy = +5.5).
The magnitude is restored, but the direction sign is not preserved. -/
theorem c2_slow_ball_revert_flips_direction :
    (g_level2.activate_power_up PowerUpType.slow_ball 0).ball.dy < 0 ∧
    ((g_level2.activate_power_up PowerUpType.slow_ball 0).reset_power_ups).ball.dy
      = 11/2 ∧
    0 < ((g_level2.activate_power_up PowerUpType.slow_ball 0).reset_power_ups).ball.dy ∧
    |((g_level2.activate_power_up PowerUpType.slow_ball 0).reset_power_ups).ball.dy|
      = |g_level2.default_ball_dy| := by
  have h1 : (g_level2.activate_power_up PowerUpType.slow_ball 0).ball.dy
      = -(77/20 : ℚ) := by
    simp only [g_level2, activate_slow_ball_dy, level_up_ball_dy, Ball.init]
    norm_num
  have h2 : ((g_level2.activate_power_up PowerUpType.slow_ball 0).reset_power_ups).ball.dy
      = 11/2 := by
    rw [reset_power_ups_slow_dy _ (activate_slow_ball_active _ _)]
    simp only [g_level2, activate_slow_ball_default_dy, activate_slow_ball_dy,
      level_up_ball_dy, level_up_default_ball_dy, Ball.init]
    norm_num
  have h3 : g_level2.default_ball_dy = -(11/2 : ℚ) := by
    simp only [g_level2, level_up_default_ball_dy, Ball.init]
    norm_num
  refine ⟨by rw [h1]; norm_num, h2, by rw [h2]; norm_num, ?_⟩
  rw [h2, h3]
  norm_num

/-- C1: the claim fails on the code, and the paddle clamp is a code bug:
`Paddle.move` checks `0 < left + dx < 800 - 100` with the width
hard-coded as 100, although its own comment says the bound is screen
width minus paddle width.  After an `increase_paddle_size` power-up the
width is 150, and 34 right-arrow moves of 9 px from the initial position
put the left edge at 656, beyond `800 - 150 = 650`, so the paddle
protrudes past the right screen edge. -/
theorem c1_paddle_clamp_ignores_width :
    (g0.activate_power_up PowerUpType.increase_paddle_size 0).paddle.rect.w = 150 ∧
    (((fun q => Paddle.move q 9)^[34])
        (g0.activate_power_up PowerUpType.increase_paddle_size 0).paddle).rect.left
      = 656 ∧
    ¬ (((fun q => Paddle.move q 9)^[34])
        (g0.activate_power_up PowerUpType.increase_paddle_size 0).paddle).in_bounds := by
  decide

/-- C5: the claim fails on the code, and the restart path is a code bug:
`reset_game` claims to reset the game "to its initial conditions" but
never resets `row_range`.  In a session that reached level 2
(`row_range = 6`), restarting after a game over leaves `row_range = 6`
at `level = 1`; clearing level 1 then produces a 7-row, 70-brick grid
instead of the 6-row, 60-brick grid the claim states. -/
theorem c5_restart_keeps_row_range :
    g_level2.row_range = 6 ∧
    g_level2.reset_game.level = 1 ∧
    g_level2.reset_game.row_range = 6 ∧
    (g_level2.reset_game.level_up tag0).level = 2 ∧
    (g_level2.reset_game.level_up tag0).row_range = 7 ∧
    (g_level2.reset_game.level_up tag0).bricks.length = 70 := by
  decide

/-- C3 counterexample: collecting a second power-up (extra_life) while
an increase_paddle_size effect is active overwrites the tracked effect;
when the timer then expires, `reset_power_ups` only handles the
extra_life tag, so afterwards no power-up is active yet the paddle
width is still 150, not the default 100 — refuting the claimed
invariant at this concrete reachable state. -/
theorem c3_overwrite_counterexample :
    (((g0.activate_power_up PowerUpType.increase_paddle_size 0).activate_power_up
        PowerUpType.extra_life 1000).reset_power_ups).active_power_up = none ∧
    (((g0.activate_power_up PowerUpType.increase_paddle_size 0).activate_power_up
        PowerUpType.extra_life 1000).reset_power_ups).paddle.rect.w = 150 ∧
    (((g0.activate_power_up PowerUpType.increase_paddle_size 0).activate_power_up
        PowerUpType.extra_life 1000).reset_power_ups).paddle_width_default = 100 ∧
    ¬ ((((g0.activate_power_up PowerUpType.increase_paddle_size 0).activate_power_up
        PowerUpType.extra_life 1000).reset_power_ups).at_baseline) := by
  refine ⟨rfl, rfl, rfl, ?_⟩
  intro hb
  exact absurd hb.1 (by decide)

/-! The brick-collision pass: a closed-form characterisation. -/

/-- `check_collision_with_bricks` in closed form: the hit bricks are
exactly those whose rect overlaps the ball rect (the rect never changes
during the pass), dy is negated once per hit, hit bricks are removed,
tagged hit bricks each spawn one power-up, and each hit brick appends
its 10 particles and its drawn number of fragments. -/

theorem check_collision_with_bricks_spec (rnd : Rnd) (bricks : List Brick) :
    ∀ (ball : Ball) (pus : List PowerUp) (pas : List Particle)
      (frs : List BrickFragment),
      BreakoutGame.check_collision_with_bricks rnd ball bricks pus pas frs =
      { ball := { ball with dy :=
            (-1 : ℚ) ^ (bricks.filter fun b =>
              ball.rect.colliderect b.rect).length * ball.dy }
        bricks := bricks.filter fun b => !(ball.rect.colliderect b.rect)
        power_ups := pus ++ (bricks.filter fun b =>
            ball.rect.colliderect b.rect).flatMap fun b =>
          (b.power_up_type.map fun t =>
            PowerUp.init (b.rect.x + 25) b.rect.y t).toList
        particles := pas ++ (bricks.filter fun b =>
            ball.rect.colliderect b.rect).flatMap fun b =>
          (List.range 10).map fun j =>
            Particle.init b.rect.centerx b.rect.centery (rnd.brick_particle b j)
        fragments := frs ++ (bricks.filter fun b =>
            ball.rect.colliderect b.rect).flatMap fun b =>
          (List.range (rnd.num_fragments b)).map fun j =>
            b.break_into_fragments (rnd.fragment b j) } := by
  induction bricks with
  | nil =>
      intro ball pus pas frs
      simp [BreakoutGame.check_collision_with_bricks]
  | cons b rest ih =>
      intro ball pus pas frs
      by_cases hc : ball.rect.colliderect b.rect
      · simp only [BreakoutGame.check_collision_with_bricks, hc, if_true]
        rw [ih]
        simp only [List.filter_cons, hc, Bool.not_true, if_true, if_false,
          Bool.false_eq_true, List.flatMap_cons, List.append_assoc]
        simp only [Ents.mk.injEq, Ball.mk.injEq, List.length_cons, pow_succ,
          and_true, true_and]
        ring
      · simp only [Bool.not_eq_true] at hc
        simp only [BreakoutGame.check_collision_with_bricks, hc, Bool.false_eq_true,
          if_false]
        rw [ih]
        simp only [List.filter_cons, hc, Bool.not_false, Bool.false_eq_true,
          if_true, if_false]



/-- C6: the brick-collision pass. -/
theorem c6_brick_collision_effects (rnd : Rnd) (ball : Ball) (bricks : List Brick)
    (pus : List PowerUp) (pas : List Particle) (frs : List BrickFragment)
    (hfrag : ∀ b, 4 ≤ rnd.num_fragments b ∧ rnd.num_fragments b ≤ 10) :
    (BreakoutGame.check_collision_with_bricks rnd ball bricks pus pas frs).ball.dy
      = (-1 : ℚ) ^ (bricks.filter fun b =>
          ball.rect.colliderect b.rect).length * ball.dy ∧
    (BreakoutGame.check_collision_with_bricks rnd ball bricks pus pas frs).bricks
      = bricks.filter (fun b => !(ball.rect.colliderect b.rect)) ∧
    (BreakoutGame.check_collision_with_bricks rnd ball bricks pus pas frs).power_ups
      = pus ++ (bricks.filter fun b =>
          ball.rect.colliderect b.rect).flatMap (fun b =>
            (b.power_up_type.map fun t =>
              PowerUp.init (b.rect.x + 25) b.rect.y t).toList) ∧
    (BreakoutGame.check_collision_with_bricks rnd ball bricks pus pas frs).particles
      = pas ++ (bricks.filter fun b =>
          ball.rect.colliderect b.rect).flatMap (fun b =>
            (List.range 10).map fun j =>
              Particle.init b.rect.centerx b.rect.centery (rnd.brick_particle b j)) ∧
    (BreakoutGame.check_collision_with_bricks rnd ball bricks pus pas frs).particles.length
      = pas.length + 10 * (bricks.filter fun b =>
          ball.rect.colliderect b.rect).length ∧
    frs.length + 4 * (bricks.filter fun b =>
        ball.rect.colliderect b.rect).length
      ≤ (BreakoutGame.check_collision_with_bricks rnd ball bricks pus pas frs).fragments.length ∧
    (BreakoutGame.check_collision_with_bricks rnd ball bricks pus pas frs).fragments.length
      ≤ frs.length + 10 * (bricks.filter fun b =>
          ball.rect.colliderect b.rect).length := by
  rw [check_collision_with_bricks_spec]
  refine ⟨rfl, rfl, rfl, rfl, ?_, ?_, ?_⟩
  · simp only [List.length_append, List.length_flatMap, Function.comp_def,
      List.length_map, List.length_range]
    rw [List.map_const', List.sum_replicate, smul_eq_mul, Nat.mul_comm]
  · simp only [List.length_append, List.length_flatMap, Function.comp_def,
      List.length_map, List.length_range]
    have h4 : 4 * ((bricks.filter fun b => ball.rect.colliderect b.rect).map
        rnd.num_fragments).length
        ≤ ((bricks.filter fun b => ball.rect.colliderect b.rect).map
          rnd.num_fragments).sum := by
      have := List.card_nsmul_le_sum
        ((bricks.filter fun b => ball.rect.colliderect b.rect).map rnd.num_fragments)
        4 ?_
      · simpa [smul_eq_mul, Nat.mul_comm] using this
      · intro x hx
        rcases List.mem_map.mp hx with ⟨b, _, rfl⟩
        exact (hfrag b).1
    calc frs.length + 4 * (bricks.filter fun b =>
          ball.rect.colliderect b.rect).length
        ≤ frs.length + ((bricks.filter fun b =>
            ball.rect.colliderect b.rect).map rnd.num_fragments).sum := by
          refine Nat.add_le_add_left ?_ _
          simpa [List.length_map] using h4
      _ = frs.length + ((bricks.filter fun b =>
            ball.rect.colliderect b.rect).map fun b => rnd.num_fragments b).sum := by
          rfl
  · simp only [List.length_append, List.length_flatMap, Function.comp_def,
      List.length_map, List.length_range]
    have h10 : ((bricks.filter fun b => ball.rect.colliderect b.rect).map
        rnd.num_fragments).sum
        ≤ 10 * ((bricks.filter fun b => ball.rect.colliderect b.rect).map
          rnd.num_fragments).length := by
      have := List.sum_le_card_nsmul
        ((bricks.filter fun b => ball.rect.colliderect b.rect).map rnd.num_fragments)
        10 ?_
      · simpa [smul_eq_mul, Nat.mul_comm] using this
      · intro x hx
        rcases List.mem_map.mp hx with ⟨b, _, rfl⟩
        exact (hfrag b).2
    refine Nat.add_le_add_left ?_ _
    simpa [List.length_map] using h10



theorem c6_brick_collision_effects_witness :
    (BreakoutGame.check_collision_with_bricks rnd0 Ball.init
        [Brick.init 390 280] [] [] []).ball.dy
      = (-1 : ℚ) ^ ([Brick.init 390 280].filter fun b =>
          Ball.init.rect.colliderect b.rect).length * Ball.init.dy ∧
    (BreakoutGame.check_collision_with_bricks rnd0 Ball.init
        [Brick.init 390 280] [] [] []).bricks
      = [Brick.init 390 280].filter (fun b => !(Ball.init.rect.colliderect b.rect)) ∧
    (BreakoutGame.check_collision_with_bricks rnd0 Ball.init
        [Brick.init 390 280] [] [] []).power_ups
      = [] ++ ([Brick.init 390 280].filter fun b =>
          Ball.init.rect.colliderect b.rect).flatMap (fun b =>
            (b.power_up_type.map fun t =>
              PowerUp.init (b.rect.x + 25) b.rect.y t).toList) ∧
    (BreakoutGame.check_collision_with_bricks rnd0 Ball.init
        [Brick.init 390 280] [] [] []).particles
      = [] ++ ([Brick.init 390 280].filter fun b =>
          Ball.init.rect.colliderect b.rect).flatMap (fun b =>
            (List.range 10).map fun j =>
              Particle.init b.rect.centerx b.rect.centery
                (rnd0.brick_particle b j)) ∧
    (BreakoutGame.check_collision_with_bricks rnd0 Ball.init
        [Brick.init 390 280] [] [] []).particles.length
      = List.length ([] : List Particle) + 10 * ([Brick.init 390 280].filter fun b =>
          Ball.init.rect.colliderect b.rect).length ∧
    List.length ([] : List BrickFragment) + 4 * ([Brick.init 390 280].filter fun b =>
        Ball.init.rect.colliderect b.rect).length
      ≤ (BreakoutGame.check_collision_with_bricks rnd0 Ball.init
          [Brick.init 390 280] [] [] []).fragments.length ∧
    (BreakoutGame.check_collision_with_bricks rnd0 Ball.init
        [Brick.init 390 280] [] [] []).fragments.length
      ≤ List.length ([] : List BrickFragment) + 10 * ([Brick.init 390 280].filter fun b =>
          Ball.init.rect.colliderect b.rect).length :=
  c6_brick_collision_effects rnd0 Ball.init [Brick.init 390 280] [] [] []
    (fun b => ⟨by norm_num [rnd0], by norm_num [rnd0]⟩)


/-- C10 counterexample: with an empty username and password text "pw",
both the login and the register attempt fall into the empty-field
branch, which only prints a message: the state (including both input
fields) is completely unchanged, so the fields are in particular not
cleared — the password box still holds "pw". -/
theorem c10_empty_input_not_cleared :
    pystrip g10.username_text = "" ∧
    BreakoutGame.login_user hash0 [] g10 = g10 ∧
    (BreakoutGame.register_user hash0 [] g10).1 = g10 ∧
    (BreakoutGame.login_user hash0 [] g10).password_text = "pw" ∧
    (BreakoutGame.login_user hash0 [] g10).password_text ≠ "" := by
  decide




/-! Preservation lemmas for the tick phases. -/

theorem move_phase_level (g : BreakoutGame) (rnd : Rnd) (lk rk : Bool) :
    (g.move_phase rnd lk rk).level = g.level := rfl

theorem move_phase_bricks_length_le (g : BreakoutGame) (rnd : Rnd) (lk rk : Bool) :
    (g.move_phase rnd lk rk).bricks.length ≤ g.bricks.length := by
  show (BreakoutGame.check_collision_with_bricks rnd
      (((g.ball.move rnd.trail_particle).check_collision_with_walls).check_collision_with_paddle
        (if rk then (if lk then g.paddle.move (-9) else g.paddle).move 9
         else if lk then g.paddle.move (-9) else g.paddle)
        g.particles rnd.paddle_hit).1
      g.bricks g.power_ups
      (((g.ball.move rnd.trail_particle).check_collision_with_walls).check_collision_with_paddle
        (if rk then (if lk then g.paddle.move (-9) else g.paddle).move 9
         else if lk then g.paddle.move (-9) else g.paddle)
        g.particles rnd.paddle_hit).2
      g.fragments).bricks.length ≤ g.bricks.length
  rw [check_collision_with_bricks_spec]
  exact List.length_filter_le _ _

theorem scoring_bricks (g : BreakoutGame) : g.scoring.bricks = g.bricks := rfl

theorem scoring_level (g : BreakoutGame) : g.scoring.level = g.level := rfl

theorem activate_power_up_bricks (g : BreakoutGame) (t : PowerUpType) (now : Nat) :
    (g.activate_power_up t now).bricks = g.bricks := by
  cases t <;> rfl

theorem activate_power_up_level (g : BreakoutGame) (t : PowerUpType) (now : Nat) :
    (g.activate_power_up t now).level = g.level := by
  cases t <;> rfl

theorem reset_power_ups_bricks (g : BreakoutGame) :
    g.reset_power_ups.bricks = g.bricks := by
  unfold BreakoutGame.reset_power_ups
  rcases h : g.active_power_up with _ | t
  · rfl
  · cases t <;> rfl

theorem reset_power_ups_level (g : BreakoutGame) :
    g.reset_power_ups.level = g.level := by
  unfold BreakoutGame.reset_power_ups
  rcases h : g.active_power_up with _ | t
  · rfl
  · cases t <;> rfl

theorem life_and_game_over_bricks (users : Users) (g : BreakoutGame) :
    (g.life_and_game_over users).1.bricks = g.bricks := by
  unfold BreakoutGame.life_and_game_over
  split <;> (dsimp only; split <;> rfl)

theorem life_and_game_over_level (users : Users) (g : BreakoutGame) :
    (g.life_and_game_over users).1.level = g.level := by
  unfold BreakoutGame.life_and_game_over
  split <;> (dsimp only; split <;> rfl)

theorem power_up_pass_bricks_level (now : Nat) (todo : List PowerUp) :
    ∀ g : BreakoutGame, (BreakoutGame.power_up_pass now g todo).1.bricks = g.bricks ∧
      (BreakoutGame.power_up_pass now g todo).1.level = g.level := by
  induction todo with
  | nil => intro g; exact ⟨rfl, rfl⟩
  | cons pu rest ih =>
      intro g
      unfold BreakoutGame.power_up_pass
      by_cases hc : (pu.move).rect.colliderect g.paddle.rect
      · simp only [hc, if_true]
        refine ⟨?_, ?_⟩
        · rw [(ih _).1, activate_power_up_bricks]
        · rw [(ih _).2, activate_power_up_level]
      · simp only [hc, if_false]
        exact ⟨(ih g).1, (ih g).2⟩

theorem power_up_expiry_bricks (now : Nat) (g : BreakoutGame) :
    (BreakoutGame.power_up_expiry now g).bricks = g.bricks := by
  unfold BreakoutGame.power_up_expiry
  split
  · exact reset_power_ups_bricks g
  · rfl

theorem power_up_expiry_level (now : Nat) (g : BreakoutGame) :
    (BreakoutGame.power_up_expiry now g).level = g.level := by
  unfold BreakoutGame.power_up_expiry
  split
  · exact reset_power_ups_level g
  · rfl



theorem level_up_level (g : BreakoutGame) (tag : Nat → Nat → Option PowerUpType) :
    (g.level_up tag).level = g.level + 1 := rfl

theorem score_and_level_of_ne_zero (rnd : Rnd) (g : BreakoutGame)
    (h : g.bricks.length ≠ 0) :
    (BreakoutGame.score_and_level rnd g).bricks = g.bricks ∧
    (BreakoutGame.score_and_level rnd g).level = g.level := by
  unfold BreakoutGame.score_and_level
  have hb : (if (g.bricks.length : Int) < g.stage_bricks then g.scoring
      else g).bricks = g.bricks := by
    split <;> rfl
  have hlv : (if (g.bricks.length : Int) < g.stage_bricks then g.scoring
      else g).level = g.level := by
    split <;> rfl
  have hcond : ((if (g.bricks.length : Int) < g.stage_bricks then g.scoring
      else g).bricks.length == 0) = false := by
    rw [hb]
    exact beq_eq_false_iff_ne.mpr h
  dsimp only
  rw [hcond]
  simp only [Bool.false_eq_true, if_false]
  exact ⟨hb, hlv⟩

theorem score_and_level_level_of_zero (rnd : Rnd) (g : BreakoutGame)
    (h : g.bricks.length = 0) :
    (BreakoutGame.score_and_level rnd g).level = g.level + 1 := by
  unfold BreakoutGame.score_and_level
  have hb : (if (g.bricks.length : Int) < g.stage_bricks then g.scoring
      else g).bricks = g.bricks := by
    split <;> rfl
  have hlv : (if (g.bricks.length : Int) < g.stage_bricks then g.scoring
      else g).level = g.level := by
    split <;> rfl
  have hcond : ((if (g.bricks.length : Int) < g.stage_bricks then g.scoring
      else g).bricks.length == 0) = true := by
    rw [hb, h]
    rfl
  dsimp only
  rw [hcond]
  simp only [if_true]
  rw [level_up_level, hlv]

theorem update_tail_bricks_level (now : Nat) (users : Users) (g : BreakoutGame) :
    (BreakoutGame.power_up_expiry now
      { (BreakoutGame.power_up_pass now (g.life_and_game_over users).1
          (g.life_and_game_over users).1.power_ups).1 with
        power_ups := (BreakoutGame.power_up_pass now (g.life_and_game_over users).1
          (g.life_and_game_over users).1.power_ups).2 }).bricks = g.bricks ∧
    (BreakoutGame.power_up_expiry now
      { (BreakoutGame.power_up_pass now (g.life_and_game_over users).1
          (g.life_and_game_over users).1.power_ups).1 with
        power_ups := (BreakoutGame.power_up_pass now (g.life_and_game_over users).1
          (g.life_and_game_over users).1.power_ups).2 }).level = g.level := by
  constructor
  · rw [power_up_expiry_bricks]
    show (BreakoutGame.power_up_pass now (g.life_and_game_over users).1
        (g.life_and_game_over users).1.power_ups).1.bricks = g.bricks
    rw [(power_up_pass_bricks_level now _ _).1, life_and_game_over_bricks]
  · rw [power_up_expiry_level]
    show (BreakoutGame.power_up_pass now (g.life_and_game_over users).1
        (g.life_and_game_over users).1.power_ups).1.level = g.level
    rw [(power_up_pass_bricks_level now _ _).2, life_and_game_over_level]

/-- C4 amended: within a level, the live brick count is non-increasing
across a tick; the only exception is the tick that clears the last
brick, which runs `level_up` (incrementing the level) and installs the
next level's fresh grid. -/
theorem c4_bricks_nonincreasing_or_levelup (g : BreakoutGame) (rnd : Rnd)
    (lk rk : Bool) (now : Nat) (users : Users) :
    (g.update_game rnd lk rk now users).1.bricks.length ≤ g.bricks.length ∨
    (g.update_game rnd lk rk now users).1.level = g.level + 1 := by
  unfold BreakoutGame.update_game
  by_cases hr : g.game_state = GameMode.game_running
  · rw [if_pos hr]
    dsimp only
    by_cases hz : (g.move_phase rnd lk rk).bricks.length = 0
    · right
      rw [(update_tail_bricks_level now users _).2,
        score_and_level_level_of_zero rnd _ hz, move_phase_level]
    · left
      rw [(update_tail_bricks_level now users _).1,
        (score_and_level_of_ne_zero rnd _ hz).1]
      exact move_phase_bricks_length_le g rnd lk rk
  · rw [if_neg hr]
    exact Or.inl (le_refl _)

/-- C4 counterexample: a Running tick that destroys the last brick
levels up within the same tick and installs a fresh 60-brick grid, so
the live brick count rises from 1 to 60 — the non-increase claimed for
every tick fails at this tick. -/
theorem c4_levelup_tick_counterexample :
    gC4.game_state = GameMode.game_running ∧
    gC4.bricks.length = 1 ∧
    (gC4.update_game rnd0 false false 0 []).1.bricks.length = 60 ∧
    ¬ ((gC4.update_game rnd0 false false 0 []).1.bricks.length ≤
        gC4.bricks.length) := by
  decide

/-- C8: whenever the brick count is `k > 0` below the scored baseline
`stage_bricks`, the scoring step awards exactly `k * level * 100`
points and moves the baseline to the current brick count (the tick's
level-up, when it fires, does not change the score and re-establishes
the baseline at the fresh grid's count). -/
theorem c8_scoring_awards_points (rnd : Rnd) (g : BreakoutGame) (k : Int)
    (hk : 0 < k) (h : (g.bricks.length : Int) = g.stage_bricks - k) :
    (BreakoutGame.score_and_level rnd g).score = g.score + k * (g.level * 100) ∧
    (BreakoutGame.score_and_level rnd g).stage_bricks =
      ((BreakoutGame.score_and_level rnd g).bricks.length : Int) := by
  have hlt : (g.bricks.length : Int) < g.stage_bricks := by omega
  have hsc : g.scoring.score = g.score + k * (g.level * 100) := by
    show g.score + (g.stage_bricks - (g.bricks.length : Int)) * (g.level * 100)
        = g.score + k * (g.level * 100)
    have hkk : g.stage_bricks - (g.bricks.length : Int) = k := by omega
    rw [hkk]
  unfold BreakoutGame.score_and_level
  dsimp only
  rw [if_pos hlt]
  by_cases hz : (g.scoring.bricks.length == 0) = true
  · rw [if_pos hz]
    exact ⟨hsc, rfl⟩
  · rw [if_neg hz]
    exact ⟨hsc, rfl⟩

theorem c8_scoring_awards_points_witness :
    (0 : Int) < 1 ∧ (gC8.bricks.length : Int) = gC8.stage_bricks - 1 ∧
    (BreakoutGame.score_and_level rnd0 gC8).score
      = gC8.score + 1 * (gC8.level * 100) ∧
    (BreakoutGame.score_and_level rnd0 gC8).stage_bricks =
      ((BreakoutGame.score_and_level rnd0 gC8).bricks.length : Int) :=
  ⟨by norm_num, by decide,
   (c8_scoring_awards_points rnd0 gC8 1 (by norm_num) (by decide)).1,
   (c8_scoring_awards_points rnd0 gC8 1 (by norm_num) (by decide)).2⟩


theorem abs_mul_ite_sign (a : ℚ) (c : Prop) [Decidable c] :
    |a * (if c then (1 : ℚ) else -1)| = |a| := by
  split
  · rw [mul_one]
  · rw [mul_neg_one, abs_neg]

/-- C3 amended: single-activation discipline preserves the baseline. -/
theorem c3_baseline_restored (g : BreakoutGame) (t : PowerUpType) (now : Nat)
    (tag : Nat → Nat → Option PowerUpType) (hb : g.at_baseline)
    (hw : g.paddle_width_default = 100) :
    ((g.activate_power_up t now).reset_power_ups).at_baseline ∧
    ((g.activate_power_up t now).reset_power_ups).active_power_up = none ∧
    (g.level_up tag).at_baseline := by
  obtain ⟨hbw, hbx, hby⟩ := hb
  refine ⟨?_, rfl, ?_, ?_, ?_⟩
  · cases t
    case increase_paddle_size => exact ⟨rfl, hbx, hby⟩
    case extra_life => exact ⟨hbw, hbx, hby⟩
    case slow_ball =>
      refine ⟨hbw, ?_, ?_⟩
      · show |g.default_ball_dx * (if g.ball.dx * (7/10) > 0 then (1:ℚ) else -1)|
            = |g.default_ball_dx|
        exact abs_mul_ite_sign _ _
      · show |g.default_ball_dy * (if g.ball.dy * (7/10) > 0 then (1:ℚ) else -1)|
            = |g.default_ball_dy|
        exact abs_mul_ite_sign _ _
  · show Paddle.init.rect.w = g.paddle_width_default
    rw [hw]
    rfl
  · rfl
  · rfl

theorem c3_baseline_restored_witness :
    g0.at_baseline ∧ g0.paddle_width_default = 100 ∧
    ((g0.activate_power_up PowerUpType.extra_life 0).reset_power_ups).at_baseline ∧
    ((g0.activate_power_up PowerUpType.extra_life 0).reset_power_ups).active_power_up
      = none ∧
    (g0.level_up tag0).at_baseline := by
  have hb : g0.at_baseline := by
    refine ⟨rfl, rfl, ?_⟩
    show |(-5 : ℚ)| = |(5 : ℚ)|
    norm_num
  have h := c3_baseline_restored g0 PowerUpType.extra_life 0 tag0 hb rfl
  exact ⟨hb, rfl, h.1, h.2.1, h.2.2⟩



theorem brick_draw_update_rect (b : Brick) : b.draw_update.rect = b.rect := by
  unfold Brick.draw_update
  dsimp only
  split <;> rfl

theorem brick_draw_update_tag (b : Brick) :
    b.draw_update.power_up_type = b.power_up_type := by
  unfold Brick.draw_update
  dsimp only
  split <;> rfl

/-- C7 amended: an unfocused loop iteration runs no gameplay tick and
leaves every gameplay-relevant field unchanged, but drawing does mutate
cosmetic state: in the running state each trail particle is updated and
each brick's flicker animation advances. -/
theorem c7_unfocused_suspends_gameplay (g : BreakoutGame) (rnd : Rnd)
    (lk rk : Bool) (now : Nat) (users : Users) (h : g.focused = false) :
    (g.loop_body rnd lk rk now users).2 = users ∧
    (g.loop_body rnd lk rk now users).1 = g.draw_game ∧
    (g.loop_body rnd lk rk now users).1.gameplay_view = g.gameplay_view ∧
    (g.game_state = GameMode.game_running →
      (g.loop_body rnd lk rk now users).1.ball.trail
        = g.ball.trail.map Particle.update) := by
  have hl : g.loop_body rnd lk rk now users = (g.draw_game, users) := by
    unfold BreakoutGame.loop_body
    rw [h]
    simp
  refine ⟨by rw [hl], by rw [hl], ?_, ?_⟩
  · rw [hl]
    show g.draw_game.gameplay_view = g.gameplay_view
    unfold BreakoutGame.draw_game
    by_cases hr : g.game_state = GameMode.game_running
    · rw [if_pos hr]
      have hbricks : (g.bricks.map Brick.draw_update).map
            (fun b => (b.rect, b.power_up_type))
          = g.bricks.map (fun b => (b.rect, b.power_up_type)) := by
        rw [List.map_map]
        refine List.map_congr_left fun b _ => ?_
        show (b.draw_update.rect, b.draw_update.power_up_type)
            = (b.rect, b.power_up_type)
        rw [brick_draw_update_rect, brick_draw_update_tag]
      unfold BreakoutGame.gameplay_view
      dsimp only [Ball.draw_update]
      rw [hbricks]
    · rw [if_neg hr]
  · intro hr
    rw [hl]
    unfold BreakoutGame.draw_game
    rw [if_pos hr]
    rfl

theorem c7_unfocused_suspends_gameplay_witness :
    (g7.loop_body rnd0 false false 0 []).2 = [] ∧
    (g7.loop_body rnd0 false false 0 []).1 = g7.draw_game ∧
    (g7.loop_body rnd0 false false 0 []).1.gameplay_view = g7.gameplay_view ∧
    (g7.loop_body rnd0 false false 0 []).1.ball.trail
      = g7.ball.trail.map Particle.update := by
  have h := c7_unfocused_suspends_gameplay g7 rnd0 false false 0 [] rfl
  exact ⟨h.1, h.2.1, h.2.2.1, h.2.2.2 rfl⟩

/-- C7 counterexample: in an unfocused iteration the Running tick is
indeed suspended, but drawing still mutates entity state — the single
trail particle's lifetime drops from 50 to 49 (and every brick's
animation counter advances), so the suspended state is not unchanged
and drawing does modify trail particle lifetimes. -/
theorem c7_draw_mutates_trail :
    g7.focused = false ∧
    g7.game_state = GameMode.game_running ∧
    ((g7.loop_body rnd0 false false 0 []).1.ball.trail.map fun p => p.lifetime)
      = [49] ∧
    (g7.ball.trail.map fun p => p.lifetime) = [50] ∧
    ((g7.loop_body rnd0 false false 0 []).1.bricks.map fun b => b.frame_counter).take 1
      = [1] ∧
    (g7.bricks.map fun b => b.frame_counter).take 1 = [0] ∧
    (g7.loop_body rnd0 false false 0 []).1.ball.trail ≠ g7.ball.trail := by
  have h1 : ((g7.loop_body rnd0 false false 0 []).1.ball.trail.map
      fun p => p.lifetime) = [49] := by decide
  have h2 : (g7.ball.trail.map fun p => p.lifetime) = [50] := by decide
  refine ⟨rfl, rfl, h1, h2, by decide, by decide, fun he => ?_⟩
  rw [he, h2] at h1
  exact absurd h1 (by decide)



theorem lookup_map_update (user : String) (n : Int) :
    ∀ (users : Users) (u : UserRec), users.lookup user = some u →
      (users.map fun kv => if kv.1 = user then
          (kv.1, { kv.2 with high_score := n }) else kv).lookup user
        = some { u with high_score := n } := by
  intro users
  induction users with
  | nil =>
      intro u hu
      simp at hu
  | cons kv rest ih =>
      obtain ⟨k, v⟩ := kv
      intro u hu
      by_cases hk : k = user
      · subst hk
        rw [List.lookup_cons_self, Option.some.injEq] at hu
        subst hu
        rw [List.map_cons]
        show List.lookup k
            ((if k = k then (k, { v with high_score := n }) else (k, v)) :: _)
          = _
        rw [if_pos rfl]
        exact List.lookup_cons_self
      · have hne : (user == k) = false :=
          beq_eq_false_iff_ne.mpr fun he => hk he.symm
        simp only [List.lookup_cons, hne] at hu
        rw [List.map_cons]
        show List.lookup user
            ((if k = user then (k, { v with high_score := n }) else (k, v)) :: _)
          = _
        rw [if_neg hk]
        simp only [List.lookup_cons, hne]
        exact ih u hu

/-- C9: final-life bottom exit enters GameOver and writes the high
score through the gateway exactly when the session score is strictly
greater. -/
theorem c9_game_over_high_score (g : BreakoutGame) (users : Users)
    (user : String) (u : UserRec) (hu : g.current_user = some user)
    (hl : users.lookup user = some u) (h1 : g.lives = 1)
    (hb : g.ball.rect.bottom ≥ 600) :
    (g.life_and_game_over users).1.game_state = GameMode.game_over ∧
    (u.high_score < g.score →
        UserAuth.get_high_score (g.life_and_game_over users).2 user
          = some g.score) ∧
    (¬ u.high_score < g.score → (g.life_and_game_over users).2 = users) := by
  have hno : ¬ (g.ball.rect.bottom ≥ 600 ∧ g.lives > 1) := by
    rintro ⟨_, hgt⟩
    rw [h1] at hgt
    exact lt_irrefl 1 hgt
  have hupd : BreakoutGame.update_high_score users g =
      if g.score > u.high_score then
        UserAuth.update_high_score users user g.score
      else users := by
    unfold BreakoutGame.update_high_score
    rw [hu]
    dsimp only
    unfold UserAuth.get_high_score
    rw [hl]
  unfold BreakoutGame.life_and_game_over
  rw [if_neg hno]
  dsimp only
  rw [if_pos ⟨hb, h1⟩]
  refine ⟨rfl, ?_, ?_⟩
  · intro hgt
    show UserAuth.get_high_score (BreakoutGame.update_high_score users g) user
        = some g.score
    rw [hupd, if_pos hgt]
    unfold UserAuth.update_high_score
    rw [hl]
    dsimp only
    rw [if_pos hgt]
    unfold UserAuth.get_high_score
    rw [lookup_map_update user g.score users u hl]
  · intro hgt
    show BreakoutGame.update_high_score users g = users
    rw [hupd, if_neg hgt]

theorem c9_game_over_high_score_witness :
    g9.current_user = some "alice" ∧
    users9.lookup "alice" = some { password := hash0 "pw", high_score := 10 } ∧
    g9.lives = 1 ∧ g9.ball.rect.bottom ≥ 600 ∧
    (g9.life_and_game_over users9).1.game_state = GameMode.game_over ∧
    UserAuth.get_high_score (g9.life_and_game_over users9).2 "alice"
      = some 42 := by
  have h := c9_game_over_high_score g9 users9 "alice"
    { password := hash0 "pw", high_score := 10 }
    rfl (by decide) rfl (by decide)
  exact ⟨rfl, by decide, rfl, by decide, h.1, h.2.1 (by decide)⟩

/-- C10 amended: an empty (after stripping) username or password leaves
the whole state — including both input fields — and the user store
unchanged; the rejection is only a printed message, the fields are not
cleared. -/
theorem c10_empty_input_rejected_unchanged (hash : String → String)
    (users : Users) (g : BreakoutGame)
    (h : pystrip g.username_text = "" ∨ pystrip g.password_text = "") :
    BreakoutGame.login_user hash users g = g ∧
    BreakoutGame.register_user hash users g = (g, users) := by
  have hcond : ¬ (pystrip g.username_text ≠ "" ∧ pystrip g.password_text ≠ "") := by
    rcases h with h | h
    · exact fun hc => hc.1 h
    · exact fun hc => hc.2 h
  constructor
  · unfold BreakoutGame.login_user
    dsimp only
    rw [if_neg hcond]
  · unfold BreakoutGame.register_user
    dsimp only
    rw [if_neg hcond]

theorem c10_empty_input_rejected_unchanged_witness :
    (pystrip g10.username_text = "" ∨ pystrip g10.password_text = "") ∧
    BreakoutGame.login_user hash0 users9 g10 = g10 ∧
    BreakoutGame.register_user hash0 users9 g10 = (g10, users9) := by
  have h := c10_empty_input_rejected_unchanged hash0 users9 g10
    (Or.inl (by decide))
  exact ⟨Or.inl (by decide), h.1, h.2⟩

end Breakout
